import Mathlib

/-!
Verification of the AguaClara design code specification against the source.

Part 1 models `src/aguaclara/design/sed_chan.py` (the `SedimentationChannel`
component) as a shallow embedding.  Python values that can be `None` are
modelled by `PyVal`; every property returns `Except PyErr PyVal`, where
`PyErr` distinguishes the error classes the spec cares about
(domain-validation `ValueError`, caller-contract `TypeError`, attribute
lookup failure, unbound-name failure, and the retired-formula
`DeprecatedFunctionError`).  Quantities are modelled by their rational
magnitudes (lengths in centimeters); the pint dimension bookkeeping is
orthogonal to every claim proved here.

The external collaborators of `sed_chan.py` (`aguaclara.core.physchem`,
`aguaclara.core.pipes.fitting_od`, `aguaclara.core.materials`), whose
sources are not part of this snapshot, are abstracted as an environment
`SedEnv` of opaque-to-the-component functions, exactly as the spec treats
them (formula library and catalog service consumed, not owned).
-/

/-- Python exception classes distinguished by the spec's error-handling
design: domain-validation failures (`ValueError`), caller-contract
failures (`TypeError`), attribute lookup failures, unbound local names,
and the retired-formula signal. -/
inductive PyErr where
  | valueError : PyErr
  | typeError : PyErr
  | attributeError : PyErr
  | nameError : PyErr
  | deprecatedFunctionError : PyErr
  deriving DecidableEq

/-- A Python value as seen by the sedimentation-channel properties:
either `None` or a quantity, modelled by its rational magnitude. -/
inductive PyVal where
  | none : PyVal
  | q : ℚ → PyVal
  deriving DecidableEq

/-- Python `+` on such values: quantities add; any operand that is `None`
raises (pint's `DimensionalityError` is a `TypeError` subclass). -/
def pyAdd : PyVal → PyVal → Except PyErr PyVal
  | PyVal.q a, PyVal.q b => Except.ok (PyVal.q (a + b))
  | _, _ => Except.error PyErr.typeError

/-- Python `max` on two such values: comparison of a quantity with `None`
raises a `TypeError`. -/
def pyMax : PyVal → PyVal → Except PyErr PyVal
  | PyVal.q a, PyVal.q b => Except.ok (PyVal.q (max a b))
  | _, _ => Except.error PyErr.typeError

/-- The external collaborators called by `sed_chan.py`, abstracted as an
environment: `pipe.fitting_od`, `pc.headloss_weir`,
`pc.viscosity_kinematic`, `pc.horiz_chan_w`, `pc.horiz_chan_h` and the
constant `mat.CONCRETE_PIPE_ROUGH`.  Arities follow the call sites in
`sed_chan.py`. -/
structure SedEnv where
  fitting_od : PyVal → Except PyErr PyVal
  headloss_weir : PyVal → PyVal → Except PyErr PyVal
  viscosity_kinematic : PyVal → Except PyErr PyVal
  horiz_chan_w : PyVal → PyVal → PyVal → PyVal → PyVal → PyVal → PyVal → PyVal →
    Except PyErr PyVal
  horiz_chan_h : PyVal → PyVal → PyVal → PyVal → PyVal → PyVal → PyVal →
    Except PyErr PyVal
  concrete_pipe_rough : ℚ

/-- The design configuration stored by `SedimentationChannel.__init__`
(magnitudes of the keyword arguments; lengths in centimeters, flow in
liters per second, temperature in degrees Celsius). -/
structure SedChanConfig where
  q : ℚ
  temp : ℚ
  sed_tank_n : ℚ
  sed_tank_w_inner : ℚ
  sed_tank_wall_thickness : ℚ
  sed_tank_inlet_man_nd : ℚ
  sed_tank_outlet_man_nd : ℚ
  sed_tank_outlet_man_hl : ℚ
  sed_wall_thickness : ℚ
  weir_thickness : ℚ
  w_min : ℚ
  outlet_man_bod_hl : ℚ
  fitting_s : ℚ
  sed_tank_diffuser_hl : ℚ
  inlet_depth_max : ℚ

namespace SedimentationChannel

/-- `SedimentationChannel.l`: channel length from tank count, inner tank
width, tank wall thickness and the sed wall thickness. -/
def l (c : SedChanConfig) : Except PyErr PyVal :=
  Except.ok (PyVal.q (c.sed_tank_n * c.sed_tank_w_inner +
    (c.sed_tank_n - 1) * c.sed_tank_wall_thickness + c.sed_wall_thickness))

/-- `SedimentationChannel.weir_exit_hl`: `pc.headloss_weir(self.q, self.l)`. -/
def weir_exit_hl (env : SedEnv) (c : SedChanConfig) : Except PyErr PyVal := do
  let lv ← l c
  env.headloss_weir (PyVal.q c.q) lv

/-- `SedimentationChannel.inlet_hl_max`:
`(sed_tank_outlet_man_hl + sed_tank_diffuser_hl) * (1 - SED_TANK_Q_RATIO ** 2)`
with the class constant `SED_TANK_Q_RATIO = 0.95`. -/
def inlet_hl_max (c : SedChanConfig) : Except PyErr PyVal :=
  Except.ok (PyVal.q ((c.sed_tank_outlet_man_hl + c.sed_tank_diffuser_hl) *
    (1 - (19 / 20 : ℚ) ^ 2)))

/-- `SedimentationChannel.inlet_w_pre_weir_plumbing_min`:
`pipe.fitting_od(sed_tank_inlet_man_nd) + 2 * fitting_s`. -/
def inlet_w_pre_weir_plumbing_min (env : SedEnv) (c : SedChanConfig) :
    Except PyErr PyVal := do
  let od ← env.fitting_od (PyVal.q c.sed_tank_inlet_man_nd)
  pyAdd od (PyVal.q (2 * c.fitting_s))

/-- `SedimentationChannel.inlet_w_pre_weir_hl_min`: the head-loss-driven
lower bound, `pc.horiz_chan_w(q, inlet_depth_max, inlet_hl_max, l,
viscosity_kinematic(temp), CONCRETE_PIPE_ROUGH, 0, 0)`; the arguments are
evaluated in Python's left-to-right order. -/
def inlet_w_pre_weir_hl_min (env : SedEnv) (c : SedChanConfig) :
    Except PyErr PyVal := do
  let hl ← inlet_hl_max c
  let lv ← l c
  let nu ← env.viscosity_kinematic (PyVal.q c.temp)
  env.horiz_chan_w (PyVal.q c.q) (PyVal.q c.inlet_depth_max) hl lv nu
    (PyVal.q env.concrete_pipe_rough) (PyVal.q 0) (PyVal.q 0)

/-- `SedimentationChannel.inlet_w_pre_weir` (lines 88-90 of
`sed_chan.py`): the body is the bare expression
`max(self.inlet_w_pre_weir_plumbing_min, self.inlet_w_pre_weir_hl_min)`
with no `return` statement, so Python computes the maximum, discards it,
and the property returns `None`. -/
def inlet_w_pre_weir (env : SedEnv) (c : SedChanConfig) : Except PyErr PyVal := do
  let a ← inlet_w_pre_weir_plumbing_min env c
  let b ← inlet_w_pre_weir_hl_min env c
  let _ ← pyMax a b
  Except.ok PyVal.none

/-- `SedimentationChannel.inlet_plumbing_depth_min`: left-associated sum
`outlet_man_bod_hl + sed_tank_diffuser_hl + fitting_od(sed_tank_outlet_man_nd)
+ fitting_s + weir_exit_hl`, in Python's evaluation order. -/
def inlet_plumbing_depth_min (env : SedEnv) (c : SedChanConfig) :
    Except PyErr PyVal := do
  let s1 ← pyAdd (PyVal.q c.outlet_man_bod_hl) (PyVal.q c.sed_tank_diffuser_hl)
  let od ← env.fitting_od (PyVal.q c.sed_tank_outlet_man_nd)
  let s2 ← pyAdd s1 od
  let s3 ← pyAdd s2 (PyVal.q c.fitting_s)
  let hl ← weir_exit_hl env c
  pyAdd s3 hl

/-- `SedimentationChannel.inlet_chan_hl_depth`:
`pc.horiz_chan_h(q, inlet_w_pre_weir, inlet_hl_max, l,
viscosity_kinematic(temp), CONCRETE_PIPE_ROUGH, 0)`; note that the second
argument is the (None-valued) `inlet_w_pre_weir` property. -/
def inlet_chan_hl_depth (env : SedEnv) (c : SedChanConfig) :
    Except PyErr PyVal := do
  let wv ← inlet_w_pre_weir env c
  let hl ← inlet_hl_max c
  let lv ← l c
  let nu ← env.viscosity_kinematic (PyVal.q c.temp)
  env.horiz_chan_h (PyVal.q c.q) wv hl lv nu (PyVal.q env.concrete_pipe_rough)
    (PyVal.q 0)

/-- `SedimentationChannel.inlet_depth`:
`max(inlet_plumbing_depth_min, inlet_chan_hl_depth)`. -/
def inlet_depth (env : SedEnv) (c : SedChanConfig) : Except PyErr PyVal := do
  let a ← inlet_plumbing_depth_min env c
  let b ← inlet_chan_hl_depth env c
  pyMax a b

/-- `SedimentationChannel.depth_min` (lines 116-118 of `sed_chan.py`):
the body is `pass`, so the property silently returns `None`. -/
def depth_min (c : SedChanConfig) : Except PyErr PyVal :=
  Except.ok PyVal.none

/-- `SedimentationChannel.inlet_chan_h_weir`:
`inlet_depth + INLET_WEIR_FREE_BOARD_H` with the class constant
`INLET_WEIR_FREE_BOARD_H = 2 * u.cm`. -/
def inlet_chan_h_weir (env : SedEnv) (c : SedChanConfig) : Except PyErr PyVal := do
  let d ← inlet_depth env c
  pyAdd d (PyVal.q 2)

/-- `SedimentationChannel.inlet_h_weir`:
`inlet_depth + INLET_WEIR_FREE_BOARD_H`, the same expression as
`inlet_chan_h_weir`. -/
def inlet_h_weir (env : SedEnv) (c : SedChanConfig) : Except PyErr PyVal := do
  let d ← inlet_depth env c
  pyAdd d (PyVal.q 2)

/-- `SedimentationChannel.inlet_w_post_weir` (lines 129-132 of
`sed_chan.py`): the body is `max(self.w_min, pc.horiz_chan_w(q,))` where
`q` is an unbound local name, so evaluation raises a `NameError` before
`max` or `horiz_chan_w` ever run. -/
def inlet_w_post_weir (env : SedEnv) (c : SedChanConfig) : Except PyErr PyVal :=
  Except.error PyErr.nameError

/-- `SedimentationChannel.inlet_w` (lines 134-137 of `sed_chan.py`):
`inlet_w_pre_weir + weir_thickness + inlet_post_weir_w`.  Python adds
left to right, so the first addition (whose left operand is the `None`
returned by `inlet_w_pre_weir`) is evaluated before the lookup of the
nowhere-defined attribute name `inlet_post_weir_w`. -/
def inlet_w (env : SedEnv) (c : SedChanConfig) : Except PyErr PyVal := do
  let a ← inlet_w_pre_weir env c
  let s1 ← pyAdd a (PyVal.q c.weir_thickness)
  let b ← (Except.error PyErr.attributeError : Except PyErr PyVal)
  pyAdd s1 b

/-- `SedimentationChannel.w` (lines 139-141 of `sed_chan.py`): the body
is `pass`, so the property silently returns `None`. -/
def w (c : SedChanConfig) : Except PyErr PyVal :=
  Except.ok PyVal.none

end SedimentationChannel

/-- A concrete benign environment for evaluating the component: the
catalog returns the nominal diameter unchanged and every formula-library
call returns the quantity 1. -/
def sedEnvW : SedEnv :=
  { fitting_od := fun v => Except.ok v
    headloss_weir := fun _ _ => Except.ok (PyVal.q 1)
    viscosity_kinematic := fun _ => Except.ok (PyVal.q 1)
    horiz_chan_w := fun _ _ _ _ _ _ _ _ => Except.ok (PyVal.q 1)
    horiz_chan_h := fun _ _ _ _ _ _ _ => Except.ok (PyVal.q 1)
    concrete_pipe_rough := 2 }

/-- The default construction of `SedimentationChannel`
(`q=20 L/s, temp=20 degC, sed_tank_n=4, sed_tank_w_inner=42 inch, ...`),
magnitudes in centimeters (42 inch = 106.68 cm, 0.09 mm = 0.009 cm). -/
def sedCfgDefault : SedChanConfig :=
  { q := 20
    temp := 20
    sed_tank_n := 4
    sed_tank_w_inner := 10668 / 100
    sed_tank_wall_thickness := 15
    sed_tank_inlet_man_nd := 60
    sed_tank_outlet_man_nd := 60
    sed_tank_outlet_man_hl := 4
    sed_wall_thickness := 15
    weir_thickness := 15
    w_min := 30
    outlet_man_bod_hl := 15
    fitting_s := 15
    sed_tank_diffuser_hl := 9 / 1000
    inlet_depth_max := 50 }

/-!
Part 2 models the formula library `aguaclara.core.physchem`.  Its source
file is not part of this snapshot (only its test suite
`src/tests/core/test_physchem.py` is), so each function below is modelled
from the spec, with its validation behaviour pinned to the concrete
expectations of the repository's own tests.  Magnitudes are real numbers
in SI base units.
-/

namespace physchem

/-- Modelled from the spec: the gravitational acceleration constant
`u.gravity` (9.80665 m/s^2) used by the head-loss and orifice formulas. -/
noncomputable def gravity : ℝ := 980665 / 100000

/-- Modelled from the spec: `aguaclara.core.physchem.area_circle`
(missing from src).  Circle area from diameter; the diameter must be
strictly positive, a zero or negative dimension is a domain error
(test_area_circle, test_area_circle_range). -/
noncomputable def area_circle (DiamCircle : ℝ) : Except PyErr ℝ :=
  if 0 < DiamCircle then Except.ok (Real.pi * DiamCircle ^ 2 / 4)
  else Except.error PyErr.valueError

/-- Modelled from the spec: `aguaclara.core.physchem.diam_circle`
(missing from src).  Circle diameter from area; the area must be strictly
positive (test_diam_circle, test_diam_circle_range). -/
noncomputable def diam_circle (AreaCircle : ℝ) : Except PyErr ℝ :=
  if 0 < AreaCircle then Except.ok (Real.sqrt (4 * AreaCircle / Real.pi))
  else Except.error PyErr.valueError

/-- Modelled from the spec: `aguaclara.core.physchem.re_pipe` (missing
from src).  Reynolds number `4 Q / (pi D nu)` for pipe flow; the tests
(test_re_pipe, test_re_pipe_range) require flow, diameter and kinematic
viscosity all strictly positive — in particular zero flow raises a
`ValueError`. -/
noncomputable def re_pipe (FlowRate Diam Nu : ℝ) : Except PyErr ℝ :=
  if 0 < FlowRate ∧ 0 < Diam ∧ 0 < Nu then
    Except.ok (4 * FlowRate / (Real.pi * Diam * Nu))
  else Except.error PyErr.valueError

/-- Modelled from the spec: `aguaclara.core.physchem.radius_hydraulic_rect`
(missing from src).  Hydraulic radius of a rectangular channel; the
open-channel flag decides whether the free surface counts as a
wetted-perimeter edge. -/
noncomputable def radius_hydraulic_rect (Width DistCenter : ℝ)
    (openchannel : Bool) : ℝ :=
  if openchannel then Width * DistCenter / (Width + 2 * DistCenter)
  else Width * DistCenter / (2 * (Width + DistCenter))

/-- Modelled from the spec: `aguaclara.core.physchem.re_rect` (missing
from src).  Reynolds number `4 Q R_h / (W D nu)` for a rectangular
channel, with the hydraulic radius matching the values asserted by
test_re_rect; test_re_rect_range requires flow strictly positive (zero
flow raises a `ValueError`) and all geometry and viscosity terms
strictly positive. -/
noncomputable def re_rect (FlowRate Width DistCenter Nu : ℝ)
    (openchannel : Bool) : Except PyErr ℝ :=
  if 0 < FlowRate ∧ 0 < Width ∧ 0 < DistCenter ∧ 0 < Nu then
    Except.ok (4 * FlowRate * radius_hydraulic_rect Width DistCenter openchannel /
      (Width * DistCenter * Nu))
  else Except.error PyErr.valueError

/-- Modelled from the spec: `aguaclara.core.physchem.re_channel` (missing
from src).  Reynolds number `4 (A/P) v / nu` for a general channel;
test_re_channel accepts zero velocity (yielding Reynolds number 0) and
test_re_channel_range rejects negative velocity and non-positive
viscosity. -/
noncomputable def re_channel (Vel Area PerimWetted Nu : ℝ) : Except PyErr ℝ :=
  if 0 ≤ Vel ∧ 0 < Area ∧ 0 < PerimWetted ∧ 0 < Nu then
    Except.ok (4 * (Area / PerimWetted) * Vel / Nu)
  else Except.error PyErr.valueError

/-- Modelled from the spec: the laminar/turbulent transition threshold
`RE_TRANSITION_PIPE` for pipe flow. -/
noncomputable def RE_TRANSITION_PIPE : ℝ := 2100

/-- Modelled from the spec: `aguaclara.core.physchem.fric_pipe` (missing
from src).  Darcy friction factor for pipe flow: roughness must be
non-negative; laminar regime (below the transition Reynolds number) uses
`64/Re`, turbulent uses the Swamee-Jain closed form. -/
noncomputable def fric_pipe (FlowRate Diam Nu Roughness : ℝ) : Except PyErr ℝ :=
  if 0 ≤ Roughness then
    (re_pipe FlowRate Diam Nu).bind (fun re =>
      if RE_TRANSITION_PIPE ≤ re then
        Except.ok ((25 / 100) /
          (Real.logb 10 (Roughness / ((37 / 10) * Diam) +
            (574 / 100) / re ^ ((9 : ℝ) / 10))) ^ 2)
      else Except.ok (64 / re))
  else Except.error PyErr.valueError

/-- Modelled from the spec: `aguaclara.core.physchem.headloss_major_pipe`
(missing from src).  Major (friction-driven) head loss
`f * 8/(g pi^2) * (L Q^2) / D^5`; length must be strictly positive
(test_headloss_major_pipe_range raises `ValueError` for lengths 0 and
-1). -/
noncomputable def headloss_major_pipe (FlowRate Diam Length Nu Roughness : ℝ) :
    Except PyErr ℝ :=
  if 0 < Length then
    (fric_pipe FlowRate Diam Nu Roughness).map (fun f =>
      f * 8 / (gravity * Real.pi ^ 2) * (Length * FlowRate ^ 2) / Diam ^ 5)
  else Except.error PyErr.valueError

/-- Modelled from the spec: `aguaclara.core.physchem.flow_orifice_vert`
(missing from src).  Vertical/partially-submerged orifice discharge: the
vena-contracta coefficient must lie in [0, 1] (checked first, so an
out-of-range coefficient raises a `ValueError` regardless of head), and a
non-positive effective head is clamped to zero flow; for positive head
the flow is the coefficient times `sqrt(2 g)` times the integral of the
submerged-width profile (test_flow_orifice_vert,
test_flow_orifice_vert_range). -/
noncomputable def flow_orifice_vert (Diam Height RatioVCOrifice : ℝ) :
    Except PyErr ℝ :=
  if 0 ≤ RatioVCOrifice ∧ RatioVCOrifice ≤ 1 then
    if 0 < Height then
      Except.ok (RatioVCOrifice * Real.sqrt (2 * gravity) *
        intervalIntegral
          (fun z => Diam * Real.sin (Real.arccos (z / (Diam / 2))) *
            Real.sqrt (Height - z))
          (-(Diam / 2)) (min (Diam / 2) Height) MeasureTheory.volume)
    else Except.ok 0
  else Except.error PyErr.valueError

/-- Modelled from the spec: `aguaclara.core.physchem.headloss_kozeny`
(missing from src).  The legacy Kozeny head-loss formula is permanently
retired: the body unconditionally raises `DeprecatedFunctionError`
(test_headloss_kozeny), independent of its five arguments. -/
noncomputable def headloss_kozeny (Length DiamMedia ApproachVel Porosity Nu : ℝ) :
    Except PyErr ℝ :=
  Except.error PyErr.deprecatedFunctionError

/-- Modelled from the spec: the compatibility-shim resolution step for
one logical argument that has a current and a legacy keyword.  Supplying
both is a caller-contract failure (`TypeError`), supplying neither is a
missing-required-argument failure (`TypeError`), supplying exactly one
succeeds; the boolean records whether a deprecation warning is emitted
(true exactly when the legacy keyword was used). -/
def resolveArg (current legacy : Option ℝ) : Except PyErr (ℝ × Bool) :=
  match current, legacy with
  | some _, some _ => Except.error PyErr.typeError
  | some c, none => Except.ok (c, false)
  | none, some v => Except.ok (v, true)
  | none, none => Except.error PyErr.typeError

/-- Modelled from the spec: a required argument with a single keyword;
omitting it is a caller-contract failure (`TypeError`). -/
def requiredArg (a : Option ℝ) : Except PyErr ℝ :=
  match a with
  | some v => Except.ok v
  | none => Except.error PyErr.typeError

/-- Modelled from the spec: `aguaclara.core.physchem.flow_swamee`
(missing from src).  Swamee-Jain flow from major head loss: diameter,
head loss, length and viscosity strictly positive, roughness
non-negative (test_flow_swamee accepts roughness 0 and rejects the rest),
with the turbulent closed-form expression. -/
noncomputable def flow_swamee (Diam HeadLossMajor Length Nu Roughness : ℝ) :
    Except PyErr ℝ :=
  if 0 < Diam ∧ 0 < HeadLossMajor ∧ 0 < Length ∧ 0 < Nu ∧ 0 ≤ Roughness then
    Except.ok ((-Real.pi / Real.sqrt 2) * Diam ^ 2 *
      Real.sqrt (gravity * HeadLossMajor * Diam / Length) *
      Real.logb 10 (Roughness / ((37 / 10) * Diam) +
        (251 / 100) * Nu *
          Real.sqrt (Length / (2 * gravity * HeadLossMajor * Diam ^ 3))))
  else Except.error PyErr.valueError

/-- Modelled from the spec: the keyword interface of `flow_swamee` after
the compatibility-shim decorator.  `HeadLossMajor` has the legacy alias
`HeadLossFric` and `Roughness` the legacy alias `PipeRough`
(test_flow_swamee_warning); `Length` and `Nu` are required arguments with
a single name.  All keyword resolution happens before any domain
validation, and the boolean result records whether a compatibility
warning was emitted. -/
noncomputable def flow_swamee_shim (Diam : ℝ)
    (HeadLossMajor HeadLossFric Length Nu Roughness PipeRough : Option ℝ) :
    Except PyErr (ℝ × Bool) := do
  let hl ← resolveArg HeadLossMajor HeadLossFric
  let len ← requiredArg Length
  let nu ← requiredArg Nu
  let rough ← resolveArg Roughness PipeRough
  let v ← flow_swamee Diam hl.1 len nu rough.1
  Except.ok (v, hl.2 || rough.2)

end physchem

/-!
Theorems.  Each claim of the specification is settled by one named
theorem below (with a witness or counterexample where called for).
-/

/-- Binding an `Except.ok` just applies the continuation. -/
theorem except_ok_bind {ε α β : Type} (a : α) (f : α → Except ε β) :
    (Except.ok a : Except ε α) >>= f = f a := rfl

/-- Binding an `Except.error` propagates the error past the continuation. -/
theorem except_error_bind {ε α β : Type} (e : ε) (f : α → Except ε β) :
    (Except.error e : Except ε α) >>= f = Except.error e := rfl

/-- Whenever `inlet_w_pre_weir` returns at all, it returns `None`: the
`max` in its body is computed and discarded because the property lacks a
`return` statement. -/
theorem inlet_w_pre_weir_ok_none (env : SedEnv) (c : SedChanConfig)
    (v : PyVal) (h : SedimentationChannel.inlet_w_pre_weir env c = Except.ok v) :
    v = PyVal.none := by
  unfold SedimentationChannel.inlet_w_pre_weir at h
  rcases h1 : SedimentationChannel.inlet_w_pre_weir_plumbing_min env c with e | a
  · rw [h1, except_error_bind] at h; exact absurd h (by simp)
  · rw [h1, except_ok_bind] at h
    rcases h2 : SedimentationChannel.inlet_w_pre_weir_hl_min env c with e | b
    · rw [h2, except_error_bind] at h; exact absurd h (by simp)
    · rw [h2, except_ok_bind] at h
      rcases h3 : pyMax a b with e | m
      · rw [h3, except_error_bind] at h; exact absurd h (by simp)
      · rw [h3, except_ok_bind] at h
        exact (Except.ok.inj h).symm

/-- Claim C1 (code bug): at the default construction
`SedimentationChannel(q=20 L/s)` under a benign environment, the two
lower bounds evaluate fine (the plumbing bound 90 cm governs over the
head-loss bound), and Python's `max` would pick the plumbing bound, yet
reading `inlet_w_pre_weir` returns `None` instead of the governing
maximum, because the property body (sed_chan.py line 90) lacks a `return`
statement.  The repository's own test (test_sed_chan.py line 20) expects
the attribute to equal the plumbing bound. -/
theorem inlet_w_pre_weir_missing_return :
    SedimentationChannel.inlet_w_pre_weir_plumbing_min sedEnvW sedCfgDefault =
      Except.ok (PyVal.q 90) ∧
    SedimentationChannel.inlet_w_pre_weir_hl_min sedEnvW sedCfgDefault =
      Except.ok (PyVal.q 1) ∧
    pyMax (PyVal.q 90) (PyVal.q 1) = Except.ok (PyVal.q 90) ∧
    SedimentationChannel.inlet_w_pre_weir sedEnvW sedCfgDefault =
      Except.ok PyVal.none ∧
    SedimentationChannel.inlet_w_pre_weir sedEnvW sedCfgDefault ≠
      Except.ok (PyVal.q 90) := by
  refine ⟨?_, by rfl, ?_, by rfl, ?_⟩
  · show Except.ok (PyVal.q 60) >>= _ = _
    rw [except_ok_bind]
    show pyAdd (PyVal.q 60) (PyVal.q (2 * 15)) = _
    simp only [pyAdd, Except.ok.injEq, PyVal.q.injEq]
    norm_num
  · simp only [pyMax, Except.ok.injEq, PyVal.q.injEq]
    norm_num
  · rw [show SedimentationChannel.inlet_w_pre_weir sedEnvW sedCfgDefault =
      Except.ok PyVal.none by rfl]
    simp

/-- Claim C2 (code bug): the unfinished design-path attributes
`depth_min` and `w` (bodies consisting of a bare `pass`,
sed_chan.py lines 116-118 and 139-141) silently return `None` on every
constructed instance; they do not fail loudly as the spec requires. -/
theorem depth_min_and_w_return_none (c : SedChanConfig) :
    SedimentationChannel.depth_min c = Except.ok PyVal.none ∧
    SedimentationChannel.w c = Except.ok PyVal.none :=
  ⟨rfl, rfl⟩

/-- Claim C9 (counterexample): at the default construction under a benign
environment, reading `inlet_w` raises a type error — the `None` returned
by `inlet_w_pre_weir` is added to `weir_thickness` before the undefined
attribute name `inlet_post_weir_w` is ever looked up — not an
attribute-lookup error as the claim states. -/
theorem inlet_w_type_error_cex :
    SedimentationChannel.inlet_w sedEnvW sedCfgDefault =
      Except.error PyErr.typeError ∧
    PyErr.typeError ≠ PyErr.attributeError :=
  ⟨rfl, by decide⟩

/-- Claim C9 (amended): for every environment and configuration, reading
`inlet_w` never returns a width (every evaluation ends in an error), and
whenever `inlet_w_pre_weir` evaluates to its `None` result the error is a
type error raised by the addition `None + weir_thickness`, which occurs
before the lookup of the nowhere-defined attribute name
`inlet_post_weir_w`. -/
theorem inlet_w_never_returns (env : SedEnv) (c : SedChanConfig) :
    (∀ v, SedimentationChannel.inlet_w env c ≠ Except.ok v) ∧
    (SedimentationChannel.inlet_w_pre_weir env c = Except.ok PyVal.none →
      SedimentationChannel.inlet_w env c = Except.error PyErr.typeError) := by
  constructor
  · intro v
    unfold SedimentationChannel.inlet_w
    rcases h1 : SedimentationChannel.inlet_w_pre_weir env c with e | a
    · rw [except_error_bind]; simp
    · have ha : a = PyVal.none := inlet_w_pre_weir_ok_none env c a h1
      subst ha
      rw [except_ok_bind]
      rw [show pyAdd PyVal.none (PyVal.q c.weir_thickness) =
        Except.error PyErr.typeError from rfl]
      rw [except_error_bind]; simp
  · intro h
    unfold SedimentationChannel.inlet_w
    rw [h, except_ok_bind]
    rfl

/-- Witness for the amended claim C9: at the default construction under
the benign environment, `inlet_w_pre_weir` does return `None`, and
`inlet_w` therefore raises the type error. -/
theorem inlet_w_never_returns_witness :
    SedimentationChannel.inlet_w sedEnvW sedCfgDefault =
      Except.error PyErr.typeError :=
  (inlet_w_never_returns sedEnvW sedCfgDefault).2 rfl

/-- Claim C10: `inlet_chan_h_weir` and `inlet_h_weir` are defined by the
same formula (`inlet_depth + INLET_WEIR_FREE_BOARD_H`) and agree on every
environment and configuration. -/
theorem inlet_chan_h_weir_eq_inlet_h_weir (env : SedEnv) (c : SedChanConfig) :
    SedimentationChannel.inlet_chan_h_weir env c =
      SedimentationChannel.inlet_h_weir env c :=
  rfl

/-- Claim C8: for every strictly positive diameter the circle-geometry
functions round-trip, `diam_circle (area_circle d) = d`, and every input
that is zero or negative is a domain-validation failure for both
functions. -/
theorem area_diam_circle_roundtrip (d : ℝ) (hd : 0 < d) :
    (physchem.area_circle d).bind physchem.diam_circle = Except.ok d ∧
    (∀ x, x ≤ 0 → physchem.area_circle x = Except.error PyErr.valueError ∧
      physchem.diam_circle x = Except.error PyErr.valueError) := by
  constructor
  · have hA : physchem.area_circle d = Except.ok (Real.pi * d ^ 2 / 4) := by
      unfold physchem.area_circle; rw [if_pos hd]
    rw [hA]
    show physchem.diam_circle (Real.pi * d ^ 2 / 4) = Except.ok d
    have hpos : 0 < Real.pi * d ^ 2 / 4 := by positivity
    unfold physchem.diam_circle
    rw [if_pos hpos]
    have h4 : 4 * (Real.pi * d ^ 2 / 4) / Real.pi = d ^ 2 := by
      field_simp
    rw [h4, Real.sqrt_sq hd.le]
  · intro x hx
    constructor
    · unfold physchem.area_circle; rw [if_neg (not_lt.mpr hx)]
    · unfold physchem.diam_circle; rw [if_neg (not_lt.mpr hx)]

/-- Witness for C8: the round trip at diameter 1, and the domain failure
at 0. -/
theorem area_diam_circle_roundtrip_witness :
    (physchem.area_circle 1).bind physchem.diam_circle = Except.ok 1 ∧
    physchem.area_circle 0 = Except.error PyErr.valueError :=
  ⟨(area_diam_circle_roundtrip 1 one_pos).1,
   ((area_diam_circle_roundtrip 1 one_pos).2 0 le_rfl).1⟩

/-- Claim C4: `headloss_kozeny` fails with the retired-formula signal
`DeprecatedFunctionError` for every combination of arguments, never
returns a value, and that signal is distinct from both the
domain-validation failure (`ValueError`) and the caller-contract failure
(`TypeError`). -/
theorem headloss_kozeny_always_retired
    (Length DiamMedia ApproachVel Porosity Nu : ℝ) :
    physchem.headloss_kozeny Length DiamMedia ApproachVel Porosity Nu =
      Except.error PyErr.deprecatedFunctionError ∧
    (∀ v : ℝ, physchem.headloss_kozeny Length DiamMedia ApproachVel Porosity Nu ≠
      Except.ok v) ∧
    PyErr.deprecatedFunctionError ≠ PyErr.valueError ∧
    PyErr.deprecatedFunctionError ≠ PyErr.typeError := by
  refine ⟨rfl, ?_, by decide, by decide⟩
  intro v
  simp [physchem.headloss_kozeny]

/-- Claim C6: for the vertical-orifice discharge, a coefficient in [0,1]
with negative effective head is clamped to exactly zero flow (not an
error), while a coefficient outside [0,1] is a domain-validation failure
regardless of the head. -/
theorem flow_orifice_vert_clamp_and_validate (d h r : ℝ) :
    (0 ≤ r → r ≤ 1 → h < 0 → physchem.flow_orifice_vert d h r = Except.ok 0) ∧
    (¬ (0 ≤ r ∧ r ≤ 1) → physchem.flow_orifice_vert d h r =
      Except.error PyErr.valueError) := by
  constructor
  · intro h0 h1 hneg
    unfold physchem.flow_orifice_vert
    rw [if_pos ⟨h0, h1⟩, if_neg (by linarith)]
  · intro hbad
    unfold physchem.flow_orifice_vert
    rw [if_neg hbad]

/-- Witness for C6: diameter 1 and coefficient 1/2 with head -1 clamp to
zero flow; coefficient 2 fails validation even with positive head. -/
theorem flow_orifice_vert_clamp_and_validate_witness :
    physchem.flow_orifice_vert 1 (-1) (1 / 2) = Except.ok 0 ∧
    physchem.flow_orifice_vert 1 1 2 = Except.error PyErr.valueError :=
  ⟨(flow_orifice_vert_clamp_and_validate 1 (-1) (1 / 2)).1 (by norm_num)
      (by norm_num) (by norm_num),
   (flow_orifice_vert_clamp_and_validate 1 1 2).2 (by norm_num)⟩

/-- Inversion for `re_pipe`: a successful result means all inputs were
strictly positive and the value is the pipe Reynolds formula. -/
theorem re_pipe_ok_iff (q d nu r : ℝ) :
    physchem.re_pipe q d nu = Except.ok r ↔
      (0 < q ∧ 0 < d ∧ 0 < nu) ∧ r = 4 * q / (Real.pi * d * nu) := by
  unfold physchem.re_pipe
  by_cases h : 0 < q ∧ 0 < d ∧ 0 < nu
  · rw [if_pos h]; simp [h, eq_comm]
  · rw [if_neg h]; simp [h]

/-- The rectangular hydraulic radius is positive for positive width and
depth, whichever way the open-channel flag points. -/
theorem radius_hydraulic_rect_pos (w dist : ℝ) (hw : 0 < w) (hd : 0 < dist)
    (b : Bool) : 0 < physchem.radius_hydraulic_rect w dist b := by
  unfold physchem.radius_hydraulic_rect
  cases b <;> simp only [Bool.false_eq_true, if_true, if_false] <;> positivity

/-- Inversion for `re_rect`. -/
theorem re_rect_ok_iff (q w dist nu r : ℝ) (b : Bool) :
    physchem.re_rect q w dist nu b = Except.ok r ↔
      (0 < q ∧ 0 < w ∧ 0 < dist ∧ 0 < nu) ∧
      r = 4 * q * physchem.radius_hydraulic_rect w dist b / (w * dist * nu) := by
  unfold physchem.re_rect
  by_cases h : 0 < q ∧ 0 < w ∧ 0 < dist ∧ 0 < nu
  · rw [if_pos h]; simp [h, eq_comm]
  · rw [if_neg h]; simp [h]

/-- Inversion for `re_channel`. -/
theorem re_channel_ok_iff (v a p nu r : ℝ) :
    physchem.re_channel v a p nu = Except.ok r ↔
      (0 ≤ v ∧ 0 < a ∧ 0 < p ∧ 0 < nu) ∧ r = 4 * (a / p) * v / nu := by
  unfold physchem.re_channel
  by_cases h : 0 ≤ v ∧ 0 < a ∧ 0 < p ∧ 0 < nu
  · rw [if_pos h]; simp [h, eq_comm]
  · rw [if_neg h]; simp [h]

/-- Claim C3 (counterexample): at the exact input of the repository's own
test `test_re_pipe_range` — flow 0 m^3/s, diameter 4 m, kinematic
viscosity 0.5 m^2/s — `re_pipe` raises a domain-validation failure rather
than returning a Reynolds number of 0 as the claim states. -/
theorem re_pipe_zero_flow_cex :
    physchem.re_pipe 0 4 (1 / 2) = Except.error PyErr.valueError ∧
    physchem.re_pipe 0 4 (1 / 2) ≠ Except.ok 0 := by
  have h : physchem.re_pipe 0 4 (1 / 2) = Except.error PyErr.valueError := by
    unfold physchem.re_pipe
    rw [if_neg]
    rintro ⟨h0, -⟩
    exact lt_irrefl 0 h0
  exact ⟨h, by rw [h]; simp⟩

/-- Claim C3 (amended): with positive geometry and viscosity, the general
channel form `re_channel` returns exactly 0 at zero velocity, returns 0
only at zero velocity, and is monotonically increasing in velocity; the
pipe and rectangular forms `re_pipe` and `re_rect` instead require
strictly positive flow — zero flow is a domain-validation failure — and
on their domain return strictly positive values, monotonically increasing
in flow. -/
theorem reynolds_zero_and_monotone :
    (∀ d nu, 0 < d → 0 < nu →
      physchem.re_pipe 0 d nu = Except.error PyErr.valueError ∧
      (∀ q r, physchem.re_pipe q d nu = Except.ok r → 0 < r) ∧
      (∀ q1 q2 r1 r2, physchem.re_pipe q1 d nu = Except.ok r1 →
        physchem.re_pipe q2 d nu = Except.ok r2 → q1 ≤ q2 → r1 ≤ r2)) ∧
    (∀ w dist nu b, 0 < w → 0 < dist → 0 < nu →
      physchem.re_rect 0 w dist nu b = Except.error PyErr.valueError ∧
      (∀ q r, physchem.re_rect q w dist nu b = Except.ok r → 0 < r) ∧
      (∀ q1 q2 r1 r2, physchem.re_rect q1 w dist nu b = Except.ok r1 →
        physchem.re_rect q2 w dist nu b = Except.ok r2 → q1 ≤ q2 → r1 ≤ r2)) ∧
    (∀ a p nu, 0 < a → 0 < p → 0 < nu →
      physchem.re_channel 0 a p nu = Except.ok 0 ∧
      (∀ v r, physchem.re_channel v a p nu = Except.ok r → (r = 0 ↔ v = 0)) ∧
      (∀ v1 v2 r1 r2, physchem.re_channel v1 a p nu = Except.ok r1 →
        physchem.re_channel v2 a p nu = Except.ok r2 → v1 ≤ v2 → r1 ≤ r2)) := by
  refine ⟨?_, ?_, ?_⟩
  · intro d nu hd hnu
    refine ⟨?_, ?_, ?_⟩
    · unfold physchem.re_pipe
      rw [if_neg]
      rintro ⟨h0, -⟩
      exact lt_irrefl 0 h0
    · intro q r hr
      rcases (re_pipe_ok_iff q d nu r).mp hr with ⟨⟨hq, -, -⟩, hval⟩
      rw [hval]
      have hπ : 0 < Real.pi := Real.pi_pos
      positivity
    · intro q1 q2 r1 r2 h1 h2 h12
      rcases (re_pipe_ok_iff q1 d nu r1).mp h1 with ⟨⟨hq1, -, -⟩, hv1⟩
      rcases (re_pipe_ok_iff q2 d nu r2).mp h2 with ⟨-, hv2⟩
      rw [hv1, hv2]
      have hden : 0 < Real.pi * d * nu := by
        have hπ : 0 < Real.pi := Real.pi_pos
        positivity
      rw [div_le_div_iff_of_pos_right hden]
      linarith
  · intro w dist nu b hw hd hnu
    have hRh := radius_hydraulic_rect_pos w dist hw hd b
    refine ⟨?_, ?_, ?_⟩
    · unfold physchem.re_rect
      rw [if_neg]
      rintro ⟨h0, -⟩
      exact lt_irrefl 0 h0
    · intro q r hr
      rcases (re_rect_ok_iff q w dist nu r b).mp hr with ⟨⟨hq, -, -, -⟩, hval⟩
      rw [hval]
      exact div_pos (mul_pos (mul_pos (by norm_num) hq) hRh)
        (mul_pos (mul_pos hw hd) hnu)
    · intro q1 q2 r1 r2 h1 h2 h12
      rcases (re_rect_ok_iff q1 w dist nu r1 b).mp h1 with ⟨⟨hq1, -, -, -⟩, hv1⟩
      rcases (re_rect_ok_iff q2 w dist nu r2 b).mp h2 with ⟨-, hv2⟩
      rw [hv1, hv2]
      have hden : 0 < w * dist * nu := mul_pos (mul_pos hw hd) hnu
      rw [div_le_div_iff_of_pos_right hden]
      have h4 : 4 * q1 ≤ 4 * q2 := by linarith
      exact mul_le_mul_of_nonneg_right h4 hRh.le
  · intro a p nu ha hp hnu
    have hC : 0 < 4 * (a / p) / nu := by positivity
    refine ⟨?_, ?_, ?_⟩
    · unfold physchem.re_channel
      rw [if_pos ⟨le_rfl, ha, hp, hnu⟩]
      norm_num
    · intro v r hr
      rcases (re_channel_ok_iff v a p nu r).mp hr with ⟨-, hval⟩
      have hval2 : r = 4 * (a / p) / nu * v := by rw [hval]; ring
      rw [hval2]
      constructor
      · intro h0
        rcases mul_eq_zero.mp h0 with hc | hv
        · exact absurd hc hC.ne'
        · exact hv
      · intro hv
        rw [hv, mul_zero]
    · intro v1 v2 r1 r2 h1 h2 h12
      rcases (re_channel_ok_iff v1 a p nu r1).mp h1 with ⟨-, hv1⟩
      rcases (re_channel_ok_iff v2 a p nu r2).mp h2 with ⟨-, hv2⟩
      have hv1' : r1 = 4 * (a / p) / nu * v1 := by rw [hv1]; ring
      have hv2' : r2 = 4 * (a / p) / nu * v2 := by rw [hv2]; ring
      rw [hv1', hv2']
      exact mul_le_mul_of_nonneg_left h12 hC.le

/-- Witness for the amended C3: concrete evaluations at unit geometry —
zero flow is a `ValueError` for the pipe and rectangular forms, and a
Reynolds number of exactly 0 for the general channel form. -/
theorem reynolds_zero_and_monotone_witness :
    physchem.re_pipe 0 1 1 = Except.error PyErr.valueError ∧
    physchem.re_rect 0 1 1 1 true = Except.error PyErr.valueError ∧
    physchem.re_channel 0 1 1 1 = Except.ok 0 :=
  ⟨(reynolds_zero_and_monotone.1 1 1 one_pos one_pos).1,
   (reynolds_zero_and_monotone.2.1 1 1 1 true one_pos one_pos one_pos).1,
   (reynolds_zero_and_monotone.2.2 1 1 1 one_pos one_pos one_pos).1⟩

/-- Claim C7: `headloss_major_pipe` is additive (hence linear) in its
length argument — whenever `fric_pipe` accepts the hydraulic arguments,
the head loss at length `l1 + l2` is the sum of the head losses at `l1`
and at `l2` — and every length ≤ 0 is a domain-validation failure. -/
theorem headloss_major_pipe_linear_in_length (q d nu e l1 l2 f : ℝ)
    (hl1 : 0 < l1) (hl2 : 0 < l2)
    (hf : physchem.fric_pipe q d nu e = Except.ok f) :
    (∃ a b, physchem.headloss_major_pipe q d l1 nu e = Except.ok a ∧
      physchem.headloss_major_pipe q d l2 nu e = Except.ok b ∧
      physchem.headloss_major_pipe q d (l1 + l2) nu e = Except.ok (a + b)) ∧
    (∀ l, l ≤ 0 →
      physchem.headloss_major_pipe q d l nu e = Except.error PyErr.valueError) := by
  constructor
  · refine ⟨f * 8 / (physchem.gravity * Real.pi ^ 2) * (l1 * q ^ 2) / d ^ 5,
      f * 8 / (physchem.gravity * Real.pi ^ 2) * (l2 * q ^ 2) / d ^ 5, ?_, ?_, ?_⟩
    · unfold physchem.headloss_major_pipe
      rw [if_pos hl1, hf]
      rfl
    · unfold physchem.headloss_major_pipe
      rw [if_pos hl2, hf]
      rfl
    · unfold physchem.headloss_major_pipe
      rw [if_pos (by linarith), hf]
      show Except.ok (f * 8 / (physchem.gravity * Real.pi ^ 2) *
        ((l1 + l2) * q ^ 2) / d ^ 5) = _
      congr 1
      ring
  · intro l hl
    unfold physchem.headloss_major_pipe
    rw [if_neg (not_lt.mpr hl)]

/-- At unit arguments the flow is laminar (`Re = 4/pi < 2100`), so
`fric_pipe` returns the `64/Re` friction factor. -/
theorem except_bind_ok_method {ε α β : Type} (a : α) (f : α → Except ε β) :
    (Except.ok a : Except ε α).bind f = f a := rfl

theorem fric_pipe_unit :
    physchem.fric_pipe 1 1 1 1 = Except.ok (64 / (4 * 1 / (Real.pi * 1 * 1))) := by
  have hre : physchem.re_pipe 1 1 1 = Except.ok (4 * 1 / (Real.pi * 1 * 1)) := by
    unfold physchem.re_pipe
    rw [if_pos ⟨one_pos, one_pos, one_pos⟩]
  have hlt : 4 * 1 / (Real.pi * 1 * 1) < physchem.RE_TRANSITION_PIPE := by
    unfold physchem.RE_TRANSITION_PIPE
    rw [div_lt_iff₀ (by positivity)]
    nlinarith [Real.pi_gt_three]
  unfold physchem.fric_pipe
  rw [if_pos (by norm_num : (0:ℝ) ≤ 1), hre]
  simp only [except_bind_ok_method]
  rw [if_neg (not_le.mpr hlt)]

/-- Witness for C7: additivity at unit hydraulics with `l1 = l2 = 1`, and
the domain failure at length 0. -/
theorem headloss_major_pipe_linear_witness :
    (∃ a b, physchem.headloss_major_pipe 1 1 1 1 1 = Except.ok a ∧
      physchem.headloss_major_pipe 1 1 1 1 1 = Except.ok b ∧
      physchem.headloss_major_pipe 1 1 (1 + 1) 1 1 = Except.ok (a + b)) ∧
    physchem.headloss_major_pipe 1 1 0 1 1 = Except.error PyErr.valueError :=
  ⟨(headloss_major_pipe_linear_in_length 1 1 1 1 1 1 _ one_pos one_pos
      fric_pipe_unit).1,
   (headloss_major_pipe_linear_in_length 1 1 1 1 1 1 _ one_pos one_pos
      fric_pipe_unit).2 0 le_rfl⟩

/-- Claim C5: the compatibility-shimmed keyword interface of
`flow_swamee` — supplying both the current and the legacy keyword for the
head loss (`HeadLossMajor`/`HeadLossFric`) or the roughness
(`Roughness`/`PipeRough`) is a caller-contract failure (`TypeError`);
omitting a required argument under either naming scheme is likewise a
`TypeError`; supplying only the legacy keyword yields exactly the result
of the current-keyword call except that the compatibility-warning flag is
set; on a valid domain the legacy call succeeds with a warning and the
current call succeeds without one; and the caller-contract failure is
distinct from the domain-validation failure. -/
theorem flow_swamee_shim_contract (Diam x l nu e : ℝ) :
    (∀ y lo no ro po, physchem.flow_swamee_shim Diam (some x) (some y) lo no ro po =
      Except.error PyErr.typeError) ∧
    (∀ y, physchem.flow_swamee_shim Diam (some x) none (some l) (some nu)
      (some e) (some y) = Except.error PyErr.typeError) ∧
    (∀ lo no ro po, physchem.flow_swamee_shim Diam none none lo no ro po =
      Except.error PyErr.typeError) ∧
    (∀ no ro po, physchem.flow_swamee_shim Diam (some x) none none no ro po =
      Except.error PyErr.typeError) ∧
    (physchem.flow_swamee_shim Diam (some x) none (some l) (some nu) none none =
      Except.error PyErr.typeError) ∧
    (physchem.flow_swamee_shim Diam none (some x) (some l) (some nu) (some e) none =
      Except.map (fun p => (p.1, true))
        (physchem.flow_swamee_shim Diam (some x) none (some l) (some nu)
          (some e) none)) ∧
    (0 < Diam → 0 < x → 0 < l → 0 < nu → 0 ≤ e →
      ∃ v, physchem.flow_swamee_shim Diam none (some x) (some l) (some nu)
          (some e) none = Except.ok (v, true) ∧
        physchem.flow_swamee_shim Diam (some x) none (some l) (some nu)
          (some e) none = Except.ok (v, false)) ∧
    PyErr.typeError ≠ PyErr.valueError := by
  refine ⟨fun y lo no ro po => rfl, fun y => rfl, fun lo no ro po => rfl,
    fun no ro po => rfl, rfl, ?_, ?_, by decide⟩
  · rcases h : physchem.flow_swamee Diam x l nu e with er | v
    · show (physchem.flow_swamee Diam x l nu e).bind _ =
        Except.map _ ((physchem.flow_swamee Diam x l nu e).bind _)
      rw [h]
      rfl
    · show (physchem.flow_swamee Diam x l nu e).bind _ =
        Except.map _ ((physchem.flow_swamee Diam x l nu e).bind _)
      rw [h]
      rfl
  · intro h1 h2 h3 h4 h5
    have hs : physchem.flow_swamee Diam x l nu e =
        Except.ok ((-Real.pi / Real.sqrt 2) * Diam ^ 2 *
          Real.sqrt (physchem.gravity * x * Diam / l) *
          Real.logb 10 (e / ((37 / 10) * Diam) +
            (251 / 100) * nu *
              Real.sqrt (l / (2 * physchem.gravity * x * Diam ^ 3)))) := by
      unfold physchem.flow_swamee
      rw [if_pos ⟨h1, h2, h3, h4, h5⟩]
    refine ⟨(-Real.pi / Real.sqrt 2) * Diam ^ 2 *
      Real.sqrt (physchem.gravity * x * Diam / l) *
      Real.logb 10 (e / ((37 / 10) * Diam) +
        (251 / 100) * nu *
          Real.sqrt (l / (2 * physchem.gravity * x * Diam ^ 3))), ?_, ?_⟩
    · show (physchem.flow_swamee Diam x l nu e).bind _ = _
      rw [hs]
      rfl
    · show (physchem.flow_swamee Diam x l nu e).bind _ = _
      rw [hs]
      rfl

/-- Witness for C5: at unit arguments the legacy-keyword call succeeds
with the warning flag set and the current-keyword call succeeds without
it, returning the same flow. -/
theorem flow_swamee_shim_contract_witness :
    ∃ v, physchem.flow_swamee_shim 1 none (some 1) (some 1) (some 1)
        (some 1) none = Except.ok (v, true) ∧
      physchem.flow_swamee_shim 1 (some 1) none (some 1) (some 1)
        (some 1) none = Except.ok (v, false) :=
  (flow_swamee_shim_contract 1 1 1 1 1).2.2.2.2.2.2.1 one_pos one_pos one_pos
    one_pos zero_le_one

